import Mathlib

/-!
Verification of the thermal-simulation notebook `src/code/chap07.ipynb`
(Modeling and Simulation in Python, chapter 7).

The data model and the operations are embedded shallowly over `ℚ`:

* `State` is the one-field state record (`State(temp=...)`).
* `System` is the parameter bag built by `System(...)` / `make_system`,
  together with the optional `results` attribute that `run_simulation`
  attaches (`none` models "attribute absent").
* `update` is the Newton-cooling step, `run_simulation` the fixed-step
  loop, `final_temp` the terminal lookup, `mix` the mixing helper and
  `error_func1` the calibration objective, each translated line by line
  from the notebook.

`modsim.py` (providing `linrange` and the `fsolve` wrapper) is not part
of the sources; the step grid and the root finder are modelled from the
specification where needed and are marked as such.
-/

namespace Chap07

/-- State record of the notebook: `State(temp=T)` holds one scalar
temperature. -/
structure State where
  temp : ℚ
  deriving DecidableEq

/-- Error kinds surfaced by the embedded operations: `phaseMismatch`
models the failed `assert s1.t_end == s2.t_end` in `mix`, `keyError`
models a pandas lookup failure in `final_temp`. -/
inductive SimError where
  | phaseMismatch
  | keyError
  deriving DecidableEq

/-- System record of the notebook: `System(init=..., volume=..., r=...,
T_env=..., t0=..., t_end=..., dt=...)`.  The `results` field models the
dynamically-added `system.results` attribute (`none` when the attribute
is absent, i.e. before any simulation has run). -/
structure System where
  init : State
  volume : ℚ
  r : ℚ
  T_env : ℚ
  t0 : ℚ
  t_end : ℚ
  dt : ℚ
  results : Option (List (ℚ × State))
  deriving DecidableEq

/-- Embedding of `update(state, system)` from the notebook:
`T = state.temp; T += -r * (T - T_env) * dt; return State(temp=T)`. -/
def update (state : State) (system : System) : State :=
  State.mk (state.temp + (-system.r * (state.temp - system.T_env) * system.dt))

/-- Modelled from the spec: the number of steps of the time grid.
`run_simulation` iterates over `ts = linrange(t0, t_end - dt, dt)`;
`linrange` lives in `modsim.py`, which is not among the sources.  The
spec states the simulator "terminates after `ceil((t_end - t0)/dt)`
steps" on an index-based grid, which agrees with `linrange` whenever
`dt` divides `t_end - t0` exactly (the notebook's usage). -/
def numSteps (system : System) : ℕ :=
  (⌈(system.t_end - system.t0) / system.dt⌉).toNat

/-- The state recorded after `n` update steps: `frame.loc[t0]` is the
initial state and `frame.loc[t+dt] = update_func(frame.loc[t], system)`. -/
def stepStates (system : System) (update_func : State → System → State) : ℕ → State
  | 0 => system.init
  | n + 1 => update_func (stepStates system update_func n) system

/-- The `TimeFrame` built by `run_simulation`: the `(time, State)` rows,
with row `i` labelled `t0 + i*dt` (the index-based grid). -/
def trajectory (system : System) (update_func : State → System → State) :
    List (ℚ × State) :=
  (List.range (numSteps system + 1)).map
    (fun (i : ℕ) => (system.t0 + (i : ℚ) * system.dt, stepStates system update_func i))

/-- Embedding of `run_simulation(system, update_func)`.  The Python
function returns `None` and mutates its argument via
`system.results = frame`; the mutation is modelled by returning the
post-call value of the caller's `System` object. -/
def run_simulation (system : System) (update_func : State → System → State) :
    System :=
  { system with results := some (trajectory system update_func) }

/-- Embedding of `final_temp(system)`: if the system has `results`,
return `system.results.temp[system.t_end]` (the row labelled `t_end`;
`none` models the pandas `KeyError` when no row carries that label),
otherwise fall back to `system.init.temp`. -/
def final_temp (system : System) : Option ℚ :=
  match system.results with
  | some frame =>
      Option.map (fun p => p.snd.temp)
        (frame.find? (fun p => decide (p.fst = system.t_end)))
  | none => some system.init.temp

/-- Embedding of `make_system(T_init, r, volume, t_end)`: builds
`System(init=State(temp=T_init), volume=volume, r=r, T_env=22, t0=0,
t_end=t_end, dt=1)`.  The Python defaults are `T_init=90, r=0.01,
volume=300, t_end=30`; call sites that rely on a default pass it
explicitly here. -/
def make_system (T_init r volume t_end : ℚ) : System :=
  { init := State.mk T_init
    volume := volume
    r := r
    T_env := 22
    t0 := 0
    t_end := t_end
    dt := 1
    results := none }

/-- Embedding of `mix(s1, s2)`: asserts `s1.t_end == s2.t_end` (failure
modelled as `phaseMismatch`), computes the weighted-average temperature
of the two terminal states and returns
`make_system(T_init=temp, volume=volume, r=s1.r)` with the Python
default `t_end=30`. -/
def mix (s1 s2 : System) : Except SimError System :=
  if s1.t_end = s2.t_end then
    match final_temp s1, final_temp s2 with
    | some T1, some T2 =>
        Except.ok (make_system
          ((s1.volume * T1 + s2.volume * T2) / (s1.volume + s2.volume))
          s1.r (s1.volume + s2.volume) 30)
    | _, _ => Except.error SimError.keyError
  else Except.error SimError.phaseMismatch

/-- Embedding of `error_func1(r)`: runs the coffee simulation with rate
`r` and returns `final_temp(system) - 70`.  On the grid built by
`run_simulation` the `t_end = 30` lookup always succeeds, so the
`getD 0` default is never taken. -/
def error_func1 (r : ℚ) : ℚ :=
  (final_temp (run_simulation (make_system 90 r 300 30) update)).getD 0 - 70

/-- Modelled from the spec: the root finder behind `fsolve` (the
`modsim.py` wrapper around `scipy.optimize.fsolve`, neither of which is
among the sources).  Per the spec it is "a general-purpose nonlinear
solver (bisection, secant, or Newton-type iteration) that repeatedly
evaluates `error` and converges when `|error(param)| < epsilon` or a
maximum iteration count is reached"; it is modelled as bisection with a
fuel bound, returning `none` when the iteration budget is exhausted. -/
def fsolve_bisect (f : ℚ → ℚ) (eps : ℚ) : ℕ → ℚ → ℚ → Option ℚ
  | 0, _, _ => none
  | n + 1, lo, hi =>
    if |f ((lo + hi) / 2)| < eps then some ((lo + hi) / 2)
    else if f lo * f ((lo + hi) / 2) ≤ 0 then
      fsolve_bisect f eps n lo ((lo + hi) / 2)
    else
      fsolve_bisect f eps n ((lo + hi) / 2) hi

/-- A coffee system run for one step, used as a concrete completed run. -/
def exampleCoffee : System := run_simulation (make_system 90 (1/2) 300 1) update

/-- A milk system run for one step, used as a concrete completed run. -/
def exampleMilk : System := run_simulation (make_system 6 (1/2) 50 1) update

/-- Closed form of one cooling step, iterated: the distance to `T_env`
is multiplied by `1 - r*dt` at every step. -/
theorem stepStates_sub_env (system : System) (n : ℕ) :
    (stepStates system update n).temp - system.T_env
      = (1 - system.r * system.dt) ^ n * (system.init.temp - system.T_env) := by
  induction n with
  | zero => simp [stepStates]
  | succ n ih =>
    simp only [stepStates, update]
    rw [pow_succ]
    linear_combination (1 - system.r * system.dt) * ih

/-- With a zero rate constant the update is the identity on states. -/
theorem stepStates_rate_zero (system : System) (hr : system.r = 0) (n : ℕ) :
    stepStates system update n = system.init := by
  induction n with
  | zero => rfl
  | succ n ih => simp [stepStates, ih, update, hr]

/-- Members of the recorded frame are exactly the grid points. -/
theorem mem_trajectory (system : System) (f : State → System → State)
    (p : ℚ × State) (hp : p ∈ trajectory system f) :
    ∃ i, i < numSteps system + 1
      ∧ p = (system.t0 + (i : ℚ) * system.dt, stepStates system f i) := by
  simp only [trajectory, List.mem_map, List.mem_range] at hp
  obtain ⟨i, hi, hip⟩ := hp
  exact ⟨i, hi, hip.symm⟩

/-- C1 (counterexample): the claim "run_simulation does not mutate the
caller-owned SystemParameters; the input system is unchanged after the
run" is false: after a concrete run the system's `results` attribute has
changed from absent to the produced frame. -/
theorem C1_counterexample :
    (run_simulation (make_system 90 (1/100) 300 30) update).results
      ≠ (make_system 90 (1/100) 300 30).results := by
  simp [run_simulation, make_system]

/-- C1 (amended): `run_simulation` returns `None` and instead stores the
produced trajectory in the system's `results` attribute, mutating the
caller-owned object; all parameter fields (`init`, `volume`, `r`,
`T_env`, `t0`, `t_end`, `dt`) are left unchanged by the run. -/
theorem C1_run_mutates_results :
    ∀ (system : System) (f : State → System → State),
      (run_simulation system f).init = system.init ∧
      (run_simulation system f).volume = system.volume ∧
      (run_simulation system f).r = system.r ∧
      (run_simulation system f).T_env = system.T_env ∧
      (run_simulation system f).t0 = system.t0 ∧
      (run_simulation system f).t_end = system.t_end ∧
      (run_simulation system f).dt = system.dt ∧
      (run_simulation system f).results = some (trajectory system f) := by
  intro system f
  simp [run_simulation]

/-- C2 (counterexample): the claim "with dt <= 0 or t_end < t0 the
simulator fails with an InvalidParameters error before any stepping; no
partial Trajectory is produced" is false: at `t_end = -5 < t0 = 0` (with
`dt = 1 > 0`) the run completes without any error and stores a
trajectory holding the initial state. -/
theorem C2_counterexample :
    (run_simulation (make_system 90 (1/100) 300 (-5)) update).results
      = some [((0 : ℚ), State.mk 90)] := by
  with_unfolding_all rfl

/-- C2 (amended): `run_simulation` performs no validation of `dt` or
`t_end`; with `dt > 0` and `t_end < t0` the step grid is empty, so the
run completes normally and stores a trajectory containing only the
initial state recorded at `t0`. -/
theorem C2_no_validation :
    ∀ (system : System) (f : State → System → State),
      0 < system.dt → system.t_end < system.t0 →
      (run_simulation system f).results = some [(system.t0, system.init)] := by
  intro system f hdt hlt
  have hq : (system.t_end - system.t0) / system.dt ≤ 0 := by
    rw [div_le_iff₀ hdt]
    linarith
  have hns : numSteps system = 0 := by
    unfold numSteps
    exact Int.toNat_of_nonpos (Int.ceil_le.mpr (by exact_mod_cast hq))
  simp [run_simulation, trajectory, hns, stepStates, List.range_succ]

/-- C2 (witness): the amended statement instantiated at a concrete
system with `t_end = -2 < 0 = t0` and `dt = 1`. -/
theorem C2_witness :
    0 < (make_system 90 (1/100) 300 (-2)).dt ∧
    (make_system 90 (1/100) 300 (-2)).t_end < (make_system 90 (1/100) 300 (-2)).t0 ∧
    (run_simulation (make_system 90 (1/100) 300 (-2)) update).results
      = some [((0 : ℚ), State.mk 90)] :=
  ⟨by with_unfolding_all decide, by with_unfolding_all decide,
    C2_no_validation (make_system 90 (1/100) 300 (-2)) update
      (by with_unfolding_all decide) (by with_unfolding_all decide)⟩

/-- C3: one application of `update` returns a state whose temperature is
exactly `T + (-rate * (T - T_env) * dt)`. -/
theorem C3_update_formula :
    ∀ (state : State) (system : System),
      (update state system).temp
        = state.temp + (-system.r * (state.temp - system.T_env) * system.dt) := by
  intro state system
  rfl

/-- C7: with `rate = 0` every recorded state of the trajectory stored by
the simulator equals the initial state. -/
theorem C7_rate_zero_constant :
    ∀ (system : System) (tr : List (ℚ × State)) (p : ℚ × State),
      system.r = 0 →
      (run_simulation system update).results = some tr →
      p ∈ tr → p.2 = system.init := by
  intro system tr p hr hres hp
  have htr : tr = trajectory system update := by
    simpa [run_simulation] using hres.symm
  subst htr
  obtain ⟨i, hi, hip⟩ := mem_trajectory system update p hp
  subst hip
  exact stepStates_rate_zero system hr i

/-- C7 (witness): the rate-zero constancy instantiated at a concrete
four-point run. -/
theorem C7_witness :
    (make_system 90 0 300 3).r = 0 ∧
    (run_simulation (make_system 90 0 300 3) update).results
      = some [((0 : ℚ), State.mk 90), (1, State.mk 90), (2, State.mk 90), (3, State.mk 90)] ∧
    (((2 : ℚ), State.mk 90) : ℚ × State).2 = (make_system 90 0 300 3).init :=
  ⟨rfl, by with_unfolding_all rfl,
    C7_rate_zero_constant (make_system 90 0 300 3)
      [((0 : ℚ), State.mk 90), (1, State.mk 90), (2, State.mk 90), (3, State.mk 90)]
      ((2 : ℚ), State.mk 90) rfl (by with_unfolding_all rfl)
      (by with_unfolding_all decide)⟩

/-- C8: with `t_end = t0` (and a positive step) the simulator stores a
trajectory with exactly one `(time, State)` pair, recorded at `t0` and
equal to the initial state. -/
theorem C8_single_point :
    ∀ (system : System) (f : State → System → State),
      0 < system.dt → system.t_end = system.t0 →
      (run_simulation system f).results = some [(system.t0, system.init)] := by
  intro system f hdt heq
  have hns : numSteps system = 0 := by
    unfold numSteps
    rw [heq, sub_self, zero_div, Int.ceil_zero]
    rfl
  simp [run_simulation, trajectory, hns, stepStates, List.range_succ]

/-- C8 (witness): the single-point boundary case instantiated at a
concrete system with `t0 = t_end = 0`. -/
theorem C8_witness :
    0 < (make_system 90 (1/100) 300 0).dt ∧
    (make_system 90 (1/100) 300 0).t_end = (make_system 90 (1/100) 300 0).t0 ∧
    (run_simulation (make_system 90 (1/100) 300 0) update).results
      = some [((0 : ℚ), State.mk 90)] :=
  ⟨by with_unfolding_all decide, by with_unfolding_all rfl,
    C8_single_point (make_system 90 (1/100) 300 0) update
      (by with_unfolding_all decide) (by with_unfolding_all rfl)⟩

/-- C4 (counterexample): the claim "for all valid SystemParameters with
rate > 0 the trajectory converges monotonically toward T_env with no
overshoot" is false: the valid system `rate = 3, dt = 1, T_env = 22,
T_init = 90` records temperature `-114` after one step, which is farther
from `T_env` than the initial state and on the opposite side of it. -/
theorem C4_counterexample :
    (run_simulation (make_system 90 3 300 2) update).results
        = some [((0 : ℚ), State.mk 90), (1, State.mk (-114)), (2, State.mk 294)] ∧
    ¬ (|(-114 : ℚ) - 22| ≤ |(90 : ℚ) - 22|) ∧
    ((-114 : ℚ) - 22) * ((90 : ℚ) - 22) < 0 :=
  ⟨by with_unfolding_all rfl, by with_unfolding_all decide, by with_unfolding_all decide⟩

/-- C4 (amended): for valid SystemParameters with `rate > 0` and the
additional forward-Euler stability bound `rate * dt ≤ 1`, the recorded
trajectory converges monotonically toward `T_env` as elapsed time
increases (the distance to `T_env` is non-increasing along the recorded
times) with no overshoot past `T_env` (every recorded state stays on the
initial state's side of `T_env`). -/
theorem C4_monotone_no_overshoot :
    ∀ (system : System) (tr : List (ℚ × State)) (p q : ℚ × State),
      (run_simulation system update).results = some tr →
      0 < system.dt → system.t0 ≤ system.t_end → 0 < system.r →
      system.r * system.dt ≤ 1 →
      p ∈ tr → q ∈ tr → p.1 ≤ q.1 →
      |q.2.temp - system.T_env| ≤ |p.2.temp - system.T_env| ∧
      0 ≤ (q.2.temp - system.T_env) * (system.init.temp - system.T_env) := by
  intro system tr p q hres hdt ht0 hr hstab hp hq hpq
  have htr : tr = trajectory system update := by
    simpa [run_simulation] using hres.symm
  subst htr
  obtain ⟨i, hi, hip⟩ := mem_trajectory system update p hp
  obtain ⟨j, hj, hjq⟩ := mem_trajectory system update q hq
  have hp1 : p.1 = system.t0 + (i : ℚ) * system.dt := by rw [hip]
  have hq1 : q.1 = system.t0 + (j : ℚ) * system.dt := by rw [hjq]
  have hp2 : p.2.temp = (stepStates system update i).temp := by rw [hip]
  have hq2 : q.2.temp = (stepStates system update j).temp := by rw [hjq]
  have hij : i ≤ j := by
    rw [hp1, hq1] at hpq
    have h1 : (i : ℚ) * system.dt ≤ (j : ℚ) * system.dt := le_of_add_le_add_left hpq
    have h2 : (i : ℚ) ≤ (j : ℚ) := le_of_mul_le_mul_right h1 hdt
    exact_mod_cast h2
  have hc0 : 0 ≤ 1 - system.r * system.dt := by linarith
  have hc1 : 1 - system.r * system.dt ≤ 1 := by nlinarith
  constructor
  · rw [hp2, hq2, stepStates_sub_env, stepStates_sub_env, abs_mul, abs_mul,
      abs_pow, abs_pow, abs_of_nonneg hc0]
    exact mul_le_mul_of_nonneg_right (pow_le_pow_of_le_one hc0 hc1 hij) (abs_nonneg _)
  · rw [hq2, stepStates_sub_env, mul_assoc]
    exact mul_nonneg (pow_nonneg hc0 j) (mul_self_nonneg _)

/-- C4 (witness): the amended statement instantiated on the run with
`rate = 1/2, dt = 1` (`rate * dt ≤ 1`) at the recorded pairs with times
`0` and `2`. -/
theorem C4_witness :
    (run_simulation (make_system 90 (1/2) 300 2) update).results
        = some [((0 : ℚ), State.mk 90), (1, State.mk 56), (2, State.mk 39)] ∧
    0 < (make_system 90 (1/2) 300 2).dt ∧
    (make_system 90 (1/2) 300 2).t0 ≤ (make_system 90 (1/2) 300 2).t_end ∧
    0 < (make_system 90 (1/2) 300 2).r ∧
    (make_system 90 (1/2) 300 2).r * (make_system 90 (1/2) 300 2).dt ≤ 1 ∧
    (((0 : ℚ), State.mk 90) : ℚ × State)
      ∈ [((0 : ℚ), State.mk 90), (1, State.mk 56), (2, State.mk 39)] ∧
    (((2 : ℚ), State.mk 39) : ℚ × State)
      ∈ [((0 : ℚ), State.mk 90), (1, State.mk 56), (2, State.mk 39)] ∧
    (((0 : ℚ), State.mk 90) : ℚ × State).1 ≤ (((2 : ℚ), State.mk 39) : ℚ × State).1 ∧
    (|(((2 : ℚ), State.mk 39) : ℚ × State).2.temp - (make_system 90 (1/2) 300 2).T_env|
        ≤ |(((0 : ℚ), State.mk 90) : ℚ × State).2.temp - (make_system 90 (1/2) 300 2).T_env| ∧
      0 ≤ ((((2 : ℚ), State.mk 39) : ℚ × State).2.temp - (make_system 90 (1/2) 300 2).T_env)
          * ((make_system 90 (1/2) 300 2).init.temp - (make_system 90 (1/2) 300 2).T_env)) :=
  ⟨by with_unfolding_all rfl, by with_unfolding_all decide, by with_unfolding_all decide,
    by with_unfolding_all decide, by with_unfolding_all decide, by with_unfolding_all decide,
    by with_unfolding_all decide, by with_unfolding_all decide,
    C4_monotone_no_overshoot (make_system 90 (1/2) 300 2)
      [((0 : ℚ), State.mk 90), (1, State.mk 56), (2, State.mk 39)]
      ((0 : ℚ), State.mk 90) ((2 : ℚ), State.mk 39)
      (by with_unfolding_all rfl) (by with_unfolding_all decide)
      (by with_unfolding_all decide) (by with_unfolding_all decide)
      (by with_unfolding_all decide) (by with_unfolding_all decide)
      (by with_unfolding_all decide) (by with_unfolding_all decide)⟩

/-- C5: on two systems with equal end times whose terminal temperatures
are `T1` and `T2`, `mix` returns the system built from the weighted
average `(w1*T1 + w2*T2) / (w1 + w2)` as initial state and the combined
weight `w1 + w2` as volume. -/
theorem C5_mix_formula :
    ∀ (s1 s2 : System) (T1 T2 : ℚ),
      s1.t_end = s2.t_end →
      final_temp s1 = some T1 → final_temp s2 = some T2 →
      mix s1 s2 = Except.ok (make_system
        ((s1.volume * T1 + s2.volume * T2) / (s1.volume + s2.volume))
        s1.r (s1.volume + s2.volume) 30) := by
  intro s1 s2 T1 T2 ht h1 h2
  unfold mix
  rw [if_pos ht, h1, h2]

/-- C5 (witness): the mixing formula instantiated on two completed
one-step runs with terminal temperatures `56` and `14`; the mixed
temperature is `(300*56 + 50*14)/350 = 50`. -/
theorem C5_witness :
    exampleCoffee.t_end = exampleMilk.t_end ∧
    final_temp exampleCoffee = some 56 ∧
    final_temp exampleMilk = some 14 ∧
    mix exampleCoffee exampleMilk
      = Except.ok (make_system
          ((exampleCoffee.volume * 56 + exampleMilk.volume * 14)
            / (exampleCoffee.volume + exampleMilk.volume))
          exampleCoffee.r (exampleCoffee.volume + exampleMilk.volume) 30) :=
  ⟨by with_unfolding_all rfl, by with_unfolding_all rfl, by with_unfolding_all rfl,
    C5_mix_formula exampleCoffee exampleMilk 56 14 (by with_unfolding_all rfl)
      (by with_unfolding_all rfl) (by with_unfolding_all rfl)⟩

/-- C6: `mix` fails with the `phaseMismatch` error exactly when the two
inputs' end times differ; with equal end times it never fails on this
precondition. -/
theorem C6_phase_mismatch_iff :
    ∀ s1 s2 : System,
      mix s1 s2 = Except.error SimError.phaseMismatch ↔ s1.t_end ≠ s2.t_end := by
  intro s1 s2
  by_cases ht : s1.t_end = s2.t_end
  · cases hf1 : final_temp s1 <;> cases hf2 : final_temp s2 <;>
      simp [mix, ht, hf1, hf2]
  · simp [mix, ht]

/-- C9: whenever the modelled root finder returns a rate `r` for the
objective `error_func1` (target terminal temperature `70`), running the
simulator with that rate yields a terminal temperature within the
absolute tolerance `eps` of the target. -/
theorem C9_calibration_round_trip :
    ∀ (eps : ℚ) (fuel : ℕ) (lo hi r : ℚ),
      fsolve_bisect error_func1 eps fuel lo hi = some r →
      |(final_temp (run_simulation (make_system 90 r 300 30) update)).getD 0 - 70| < eps := by
  intro eps fuel
  induction fuel with
  | zero =>
    intro lo hi r h
    simp [fsolve_bisect] at h
  | succ n ih =>
    intro lo hi r h
    rw [fsolve_bisect] at h
    by_cases hc : |error_func1 ((lo + hi) / 2)| < eps
    · rw [if_pos hc] at h
      injection h with h
      subst h
      exact hc
    · rw [if_neg hc] at h
      by_cases hs : error_func1 lo * error_func1 ((lo + hi) / 2) ≤ 0
      · rw [if_pos hs] at h
        exact ih lo ((lo + hi) / 2) r h
      · rw [if_neg hs] at h
        exact ih ((lo + hi) / 2) hi r h

set_option maxRecDepth 100000 in
/-- C9 (witness): the round trip instantiated with tolerance `21`,
bracket `[0, 0]` and one iteration: the solver converges to `r = 0`,
whose terminal temperature `90` is within `21` of the target `70`. -/
theorem C9_witness :
    fsolve_bisect error_func1 21 1 0 0 = some 0 ∧
    |(final_temp (run_simulation (make_system 90 0 300 30) update)).getD 0 - 70| < 21 :=
  ⟨by with_unfolding_all rfl,
    C9_calibration_round_trip 21 1 0 0 0 (by with_unfolding_all rfl)⟩

/-- C10: every successful `mix` returns a system whose rate constant is
the first argument's `r` (the second argument's rate is ignored) and
whose end time is the `make_system` default `30`, regardless of the
inputs' end times. -/
theorem C10_mix_rate_and_t_end :
    ∀ (s1 s2 m : System), mix s1 s2 = Except.ok m → m.r = s1.r ∧ m.t_end = 30 := by
  intro s1 s2 m h
  by_cases ht : s1.t_end = s2.t_end
  · cases hf1 : final_temp s1 with
    | none => simp [mix, ht, hf1] at h
    | some T1 =>
      cases hf2 : final_temp s2 with
      | none => simp [mix, ht, hf1, hf2] at h
      | some T2 =>
        simp only [mix, ht, hf1, hf2, if_true, eq_self_iff_true] at h
        simp only [if_pos rfl, Except.ok.injEq] at h
        subst h
        exact ⟨rfl, rfl⟩
  · simp [mix, ht] at h

/-- C10 (witness): mixing the two one-step example runs (both with rate
`1/2` and end time `1`) yields the system `make_system 50 (1/2) 350 30`,
whose rate equals the first input's and whose end time is `30`. -/
theorem C10_witness :
    mix exampleCoffee exampleMilk = Except.ok (make_system 50 (1/2) 350 30) ∧
    ((make_system 50 (1/2) 350 30).r = exampleCoffee.r ∧
      (make_system 50 (1/2) 350 30).t_end = 30) :=
  ⟨by with_unfolding_all rfl,
    C10_mix_rate_and_t_end exampleCoffee exampleMilk (make_system 50 (1/2) 350 30)
      (by with_unfolding_all rfl)⟩

end Chap07
